import Mathlib

/-!
Verification of the sentinel-rs log-monitor core: a shallow embedding of
`src/state.rs` (AppState: counters, last-alert snapshot, webhook cooldown
gate) and `src/parser.rs` (LogParser: structured-line inspection and
pattern matching), with theorems settling the spec claims.

External crates (regex, serde_json, reqwest, tokio) are modelled as
abstract components: a regex engine is a fallible pattern compiler
producing match predicates, a JSON parser is a function from a line to an
optional `PartialLog` record.  Time (`std::time::Instant`) is modelled as
a `Nat` count of nanoseconds; `AtomicU64` counters are `Nat` with
wrap-around at `2 ^ 64` (the semantics of `fetch_add`).
-/

set_option autoImplicit false

namespace Sentinel

/-- Modulus of a Rust `u64` / `AtomicU64`: `fetch_add` wraps at this bound. -/
def u64Size : Nat := 2 ^ 64

/-- Model of Rust `str::to_lowercase` restricted to the ASCII range
(`Char.toLower` lowercases exactly the ASCII uppercase letters; the two
agree on every string the program or its configuration uses). -/
def strLower (s : String) : String := ⟨s.data.map Char.toLower⟩

/-- Model of Rust `str::trim_start`: drop leading whitespace characters. -/
def strTrimLeft (s : String) : String := ⟨s.data.dropWhile Char.isWhitespace⟩

/-- Model of Rust `str::starts_with` applied to the left-brace character,
as in `line.trim_start().starts_with` of a brace in `process_line`. -/
def strStartsWithBrace (s : String) : Bool :=
  match s.data with
  | c :: _ => c == Char.ofNat 123
  | [] => false

/-- Helper for `strContains`: does `sub` occur as a contiguous sublist? -/
def listContainsSub (sub : List Char) : List Char → Bool
  | [] => sub.isEmpty
  | c :: t => List.isPrefixOf sub (c :: t) || listContainsSub sub t

/-- Model of Rust `str::contains` with a string pattern: substring test. -/
def strContains (s sub : String) : Bool := listContainsSub sub.data s.data

/-- Model of Rust `Option::or` on the borrowed fields (`a.or(b)`). -/
def firstSome (a b : Option String) : Option String :=
  match a with
  | some x => some x
  | none => b

/-- A rule from configuration: `config.rs`, struct `LogRule`.  The
`threshold` field is carried by configuration but never read by the
parser or the state (claim C9). -/
structure LogRule where
  name : String
  pattern : String
  threshold : Nat
  deriving Repr

/-- The partial JSON record `parser.rs` deserializes a structured line
into: struct `PartialLog` with four optional fields. -/
structure PartialLog where
  level : Option String
  severity : Option String
  msg : Option String
  message : Option String
  deriving DecidableEq

/-- Model of the external `serde_json::from_str` specialised to
`PartialLog`: a line either parses to a record or fails. -/
def JsonParser : Type := String → Option PartialLog

/-- Model of the external `regex` crate: compiling one pattern string
either fails (invalid regular expression) or yields a match predicate on
lines (`Regex::is_match` semantics for that pattern). -/
structure RegexEngine where
  compile : String → Option (String → Bool)

/-- Model of `regex::RegexSet::new`: compile every pattern, failing if
any single pattern is invalid. -/
def compileAll (E : RegexEngine) : List String → Option (List (String → Bool))
  | [] => some []
  | p :: ps =>
    match E.compile p, compileAll E ps with
    | some r, some rs => some (r :: rs)
    | _, _ => none

/-- The mutable state of `state.rs`, struct `AppState`.  `start_time`
only feeds the dashboard and is omitted; `last_webhook_sent` holds the
instant (nanoseconds) recorded by the cooldown gate. -/
structure AppState where
  total_lines : Nat
  total_errors : Nat
  last_error : Option String
  webhook_url : Option String
  last_webhook_sent : Option Nat
  deriving DecidableEq

/-- Model of `AppState::new`: zero counters, no last error, no webhook sent yet. -/
def AppState.new (webhook_url : Option String) : AppState :=
  { total_lines := 0
    total_errors := 0
    last_error := none
    webhook_url := webhook_url
    last_webhook_sent := none }

/-- Model of `AppState::increment_lines`: `total_lines.fetch_add(1)` (wrapping). -/
def AppState.increment_lines (s : AppState) : AppState :=
  { s with total_lines := (s.total_lines + 1) % u64Size }

/-- Model of `AppState::record_error`: `total_errors.fetch_add(1)` (wrapping) and
overwrite `last_error` with the message. -/
def AppState.record_error (s : AppState) (message : String) : AppState :=
  { s with
    total_errors := (s.total_errors + 1) % u64Size
    last_error := some message }

/-- The cooldown window of `AppState::should_send_webhook`:
`Duration::from_secs(10)` in nanoseconds. -/
def cooldownNanos : Nat := 10 * 1000000000

/-- Model of `AppState::should_send_webhook`, lifted to explicit state passing:
given the stored `last_webhook_sent` and the current instant `now`,
return the decision and the new stored value.  `None` means no
notification was ever sent: allow and record `now`.  Otherwise allow
(and record `now`) exactly when the elapsed time strictly exceeds the
cooldown; on refusal the stored instant is kept. -/
def shouldSendWebhook (lastSent : Option Nat) (now : Nat) : Bool × Option Nat :=
  match lastSent with
  | some t => if now - t > cooldownNanos then (true, some now) else (false, some t)
  | none => (true, some now)

/-- The webhook block duplicated in both alert branches of
`process_line`: if a webhook URL is configured and the cooldown gate
allows, spawn a dispatch with the given payload text.  The returned
`Option String` is the payload of the spawned request, `none` when no
request is spawned (dispatch is fire-and-forget; its network effect is
outside the model). -/
def tryWebhook (s : AppState) (now : Nat) (payload : String) : AppState × Option String :=
  if s.webhook_url.isSome then
    if (shouldSendWebhook s.last_webhook_sent now).1 then
      ({ s with last_webhook_sent := (shouldSendWebhook s.last_webhook_sent now).2 }, some payload)
    else
      ({ s with last_webhook_sent := (shouldSendWebhook s.last_webhook_sent now).2 }, none)
  else (s, none)

/-- The compiled parser of `parser.rs`, struct `LogParser`: the compiled
pattern set (one match predicate per rule, in declaration order) and the
parallel list of rule names. -/
structure LogParser where
  regex_set : List (String → Bool)
  rule_names : List String

/-- Outcome of `LogParser::new`.  The source calls
`RegexSet::new(patterns).expect("Invalid RegexSet in config")`, so an
invalid pattern produces a panic carrying that message, not an error
value.  Modelled from the spec: the `configError` constructor stands for
the `ConfigError` failure mode the spec names; no such type exists in
the source, and `LogParser.new` never produces it. -/
inductive StartupResult where
  | ok : LogParser → StartupResult
  | panicked : String → StartupResult
  | configError : String → StartupResult

/-- Model of `LogParser::new`: extract the pattern strings and names, compile the
set; on any invalid pattern the `expect` panics with
"Invalid RegexSet in config". -/
def LogParser.new (E : RegexEngine) (config_rules : List LogRule) : StartupResult :=
  match compileAll E (config_rules.map (fun r => r.pattern)) with
  | some rs => .ok { regex_set := rs, rule_names := config_rules.map (fun r => r.name) }
  | none => .panicked "Invalid RegexSet in config"

/-- Is a startup outcome the `ConfigError` failure mode the spec names? -/
def StartupResult.isConfigError : StartupResult → Bool
  | .configError _ => true
  | _ => false

/-- Model of `regex::RegexSet::matches(line)` on the compiled set: the
ascending list of indices of the patterns that match the line (the
`SetMatches` iterator yields matching indices in ascending order). -/
def matchIndices (pats : List (String → Bool)) (line : String) : List Nat :=
  match pats with
  | [] => []
  | q :: ps =>
    if q line then 0 :: (matchIndices ps line).map (fun n => n + 1)
    else (matchIndices ps line).map (fun n => n + 1)

/-- Does the pattern at index `i` match the line? (Out-of-range indices
never match.) -/
def patAt (pats : List (String → Bool)) (i : Nat) (line : String) : Bool :=
  (pats.getD i (fun _ => false)) line

/-- The rule index `process_line` selects: `matches[0]` guarded by
`is_match` / `!matches.is_empty()`, i.e. the head of the match list. -/
def LogParser.firstMatch (p : LogParser) (line : String) : Option Nat :=
  (matchIndices p.regex_set line).head?

/-- The severity test of the structured branch of `process_line`:
`level.or(severity)`, lower-cased, equal to error, panic or fatal. -/
def isErrorLevel (json : PartialLog) : Bool :=
  match firstSome json.level json.severity with
  | some l => strLower l == "error" || strLower l == "panic" || strLower l == "fatal"
  | none => false

/-- Step 2 of `process_line`: the `RegexSet` fallback.  If some pattern
matches, take the first matching index; the line is an alert exactly
when that rule's lower-cased name contains "error" or "panic", in which
case the raw line is recorded and the webhook block runs. -/
def LogParser.patternStep (p : LogParser) (line : String) (now : Nat) (s : AppState) :
    AppState × Option String :=
  match p.firstMatch line with
  | some idx =>
    if strContains (strLower (p.rule_names.getD idx "")) "error"
        || strContains (strLower (p.rule_names.getD idx "")) "panic" then
      tryWebhook (s.record_error line) now ("🚨 Sentinel Alert: Pattern Match!\nLog: " ++ line)
    else (s, none)
  | none => (s, none)

/-- The structured-alert branch of `process_line`: record the alert
message "JSON: " ++ (message field, else msg field, else the raw line)
and run the webhook block.  The second component of the result is the
payload of the spawned webhook dispatch, if any. -/
def jsonAlertStep (line : String) (now : Nat) (s : AppState) (json : PartialLog) :
    AppState × Option String :=
  tryWebhook (s.record_error ("JSON: " ++ (firstSome json.message json.msg).getD line)) now
    ("🚨 Sentinel Alert: JSON Error Detected!\nMessage: "
      ++ (firstSome json.message json.msg).getD line)

/-- Model of `LogParser::process_line`.  Increment `total_lines`; if
the line's leading non-whitespace starts with a left brace and it parses
as a `PartialLog` whose level (else severity) is error/panic/fatal, run
the JSON alert branch and return early; otherwise fall through to the
pattern step. -/
def LogParser.processLine (p : LogParser) (J : JsonParser) (line : String) (now : Nat)
    (s : AppState) : AppState × Option String :=
  if strStartsWithBrace (strTrimLeft line) then
    match J line with
    | some json =>
      if isErrorLevel json then jsonAlertStep line now s.increment_lines json
      else p.patternStep line now s.increment_lines
    | none => p.patternStep line now s.increment_lines
  else p.patternStep line now s.increment_lines

/-! ### Projection lemmas for the state operations -/

@[simp]
theorem increment_lines_total_lines (s : AppState) :
    (s.increment_lines).total_lines = (s.total_lines + 1) % u64Size := rfl

@[simp]
theorem increment_lines_total_errors (s : AppState) :
    (s.increment_lines).total_errors = s.total_errors := rfl

@[simp]
theorem increment_lines_last_error (s : AppState) :
    (s.increment_lines).last_error = s.last_error := rfl

@[simp]
theorem increment_lines_webhook_url (s : AppState) :
    (s.increment_lines).webhook_url = s.webhook_url := rfl

@[simp]
theorem increment_lines_last_webhook_sent (s : AppState) :
    (s.increment_lines).last_webhook_sent = s.last_webhook_sent := rfl

@[simp]
theorem record_error_total_lines (s : AppState) (m : String) :
    (s.record_error m).total_lines = s.total_lines := rfl

@[simp]
theorem record_error_total_errors (s : AppState) (m : String) :
    (s.record_error m).total_errors = (s.total_errors + 1) % u64Size := rfl

@[simp]
theorem record_error_last_error (s : AppState) (m : String) :
    (s.record_error m).last_error = some m := rfl

@[simp]
theorem record_error_webhook_url (s : AppState) (m : String) :
    (s.record_error m).webhook_url = s.webhook_url := rfl

@[simp]
theorem record_error_last_webhook_sent (s : AppState) (m : String) :
    (s.record_error m).last_webhook_sent = s.last_webhook_sent := rfl

@[simp]
theorem tryWebhook_total_lines (s : AppState) (now : Nat) (m : String) :
    (tryWebhook s now m).1.total_lines = s.total_lines := by
  unfold tryWebhook
  split <;> [skip; rfl]
  split <;> rfl

@[simp]
theorem tryWebhook_total_errors (s : AppState) (now : Nat) (m : String) :
    (tryWebhook s now m).1.total_errors = s.total_errors := by
  unfold tryWebhook
  split <;> [skip; rfl]
  split <;> rfl

@[simp]
theorem tryWebhook_last_error (s : AppState) (now : Nat) (m : String) :
    (tryWebhook s now m).1.last_error = s.last_error := by
  unfold tryWebhook
  split <;> [skip; rfl]
  split <;> rfl

/-! ### The match list: first-match characterization -/

@[simp]
theorem patAt_nil (i : Nat) (line : String) : patAt [] i line = false := rfl

@[simp]
theorem patAt_cons_zero (q : String → Bool) (ps : List (String → Bool)) (line : String) :
    patAt (q :: ps) 0 line = q line := rfl

@[simp]
theorem patAt_cons_succ (q : String → Bool) (ps : List (String → Bool)) (i : Nat)
    (line : String) : patAt (q :: ps) (i + 1) line = patAt ps i line := rfl

theorem head_matchIndices_some (pats : List (String → Bool)) (line : String) :
    ∀ i, (matchIndices pats line).head? = some i →
      i < pats.length ∧ patAt pats i line = true ∧ ∀ j, j < i → patAt pats j line = false := by
  induction pats with
  | nil => intro i h; simp [matchIndices] at h
  | cons q ps ih =>
    intro i h
    by_cases hq : q line
    · simp [matchIndices, hq] at h
      subst h
      exact ⟨Nat.succ_pos _, by simp [hq], fun j hj => absurd hj (Nat.not_lt_zero j)⟩
    · rw [matchIndices, if_neg hq, List.head?_map] at h
      obtain ⟨k, hk, hik⟩ := Option.map_eq_some'.mp h
      have hik' : i = k + 1 := by simpa using hik.symm
      subst hik'
      obtain ⟨hlen, hpk, hbelow⟩ := ih k hk
      refine ⟨Nat.succ_lt_succ hlen, by simpa using hpk, ?_⟩
      intro j hj
      match j with
      | 0 => simpa using hq
      | j + 1 => exact hbelow j (Nat.lt_of_succ_lt_succ hj)

theorem head_matchIndices_least (pats : List (String → Bool)) (line : String) :
    ∀ i, i < pats.length → patAt pats i line = true →
      (∀ j, j < i → patAt pats j line = false) →
      (matchIndices pats line).head? = some i := by
  induction pats with
  | nil => intro i h; simp at h
  | cons q ps ih =>
    intro i hlen hpi hbelow
    by_cases hq : q line
    · match i with
      | 0 => simp [matchIndices, hq]
      | i + 1 => have := hbelow 0 (Nat.succ_pos i); simp [hq] at this
    · match i with
      | 0 => simp at hpi; exact absurd hpi hq
      | i + 1 =>
        have htail := ih i (Nat.lt_of_succ_lt_succ hlen) (by simpa using hpi)
          (fun j hj => by simpa using hbelow (j + 1) (Nat.succ_lt_succ hj))
        rw [matchIndices, if_neg hq, List.head?_map, htail]
        rfl

theorem head_matchIndices_none (pats : List (String → Bool)) (line : String) :
    (matchIndices pats line).head? = none ↔ ∀ i, patAt pats i line = false := by
  induction pats with
  | nil => simp [matchIndices]
  | cons q ps ih =>
    by_cases hq : q line
    · simp only [matchIndices, hq, if_true]
      constructor
      · intro h; simp at h
      · intro h; have := h 0; simp [hq] at this
    · rw [matchIndices, if_neg hq, List.head?_map]
      constructor
      · intro h i
        match i with
        | 0 => simpa using hq
        | i + 1 =>
          rw [Option.map_eq_none'] at h
          simpa using ih.mp h i
      · intro h
        have hnone : (matchIndices ps line).head? = none :=
          ih.mpr (fun i => by simpa using h (i + 1))
        rw [hnone]
        rfl

/-! ### Branch lemmas for `process_line` -/

@[simp]
theorem jsonAlertStep_total_lines (line : String) (now : Nat) (s : AppState) (json : PartialLog) :
    (jsonAlertStep line now s json).1.total_lines = s.total_lines := by
  unfold jsonAlertStep; simp

@[simp]
theorem jsonAlertStep_total_errors (line : String) (now : Nat) (s : AppState) (json : PartialLog) :
    (jsonAlertStep line now s json).1.total_errors = (s.total_errors + 1) % u64Size := by
  unfold jsonAlertStep; simp

@[simp]
theorem jsonAlertStep_last_error (line : String) (now : Nat) (s : AppState) (json : PartialLog) :
    (jsonAlertStep line now s json).1.last_error
      = some ("JSON: " ++ (firstSome json.message json.msg).getD line) := by
  unfold jsonAlertStep; simp

theorem patternStep_total_lines (p : LogParser) (line : String) (now : Nat) (s : AppState) :
    (p.patternStep line now s).1.total_lines = s.total_lines := by
  unfold LogParser.patternStep
  split
  · split <;> simp
  · rfl

theorem patternStep_errors_cases (p : LogParser) (line : String) (now : Nat) (s : AppState) :
    (p.patternStep line now s).1.total_errors = s.total_errors ∨
      (p.patternStep line now s).1.total_errors = (s.total_errors + 1) % u64Size := by
  unfold LogParser.patternStep
  split
  · split
    · right; simp
    · left; rfl
  · left; rfl

theorem patternStep_no_alert (p : LogParser) (line : String) (now : Nat) (s : AppState)
    (h : ∀ idx, p.firstMatch line = some idx →
      (strContains (strLower (p.rule_names.getD idx "")) "error"
        || strContains (strLower (p.rule_names.getD idx "")) "panic") = false) :
    p.patternStep line now s = (s, none) := by
  unfold LogParser.patternStep
  split
  · rename_i idx heq
    rw [h idx heq]
    simp
  · rfl

theorem processLine_not_structured (p : LogParser) (J : JsonParser) (line : String) (now : Nat)
    (s : AppState) (hb : strStartsWithBrace (strTrimLeft line) = false) :
    p.processLine J line now s = p.patternStep line now s.increment_lines := by
  unfold LogParser.processLine
  rw [hb]
  simp

theorem processLine_parse_failed (p : LogParser) (J : JsonParser) (line : String) (now : Nat)
    (s : AppState) (hb : strStartsWithBrace (strTrimLeft line) = true) (hp : J line = none) :
    p.processLine J line now s = p.patternStep line now s.increment_lines := by
  unfold LogParser.processLine
  rw [hb, hp]
  simp

theorem processLine_structured_benign (p : LogParser) (J : JsonParser) (line : String) (now : Nat)
    (s : AppState) (json : PartialLog) (hb : strStartsWithBrace (strTrimLeft line) = true)
    (hp : J line = some json) (he : isErrorLevel json = false) :
    p.processLine J line now s = p.patternStep line now s.increment_lines := by
  unfold LogParser.processLine
  rw [hb, hp]
  simp [he]

theorem processLine_structured_alert (p : LogParser) (J : JsonParser) (line : String) (now : Nat)
    (s : AppState) (json : PartialLog) (hb : strStartsWithBrace (strTrimLeft line) = true)
    (hp : J line = some json) (he : isErrorLevel json = true) :
    p.processLine J line now s = jsonAlertStep line now s.increment_lines json := by
  unfold LogParser.processLine
  rw [hb, hp]
  simp [he]

theorem compileAll_eq_none (E : RegexEngine) :
    ∀ (ps : List String) (p : String), p ∈ ps → E.compile p = none →
      compileAll E ps = none := by
  intro ps
  induction ps with
  | nil => intro p hp _; exact absurd hp (List.not_mem_nil p)
  | cons q ps ih =>
    intro p hp hc
    rcases List.mem_cons.mp hp with hq | hmem
    · subst hq
      unfold compileAll
      rw [hc]
    · unfold compileAll
      rw [ih p hmem hc]
      cases E.compile q <;> rfl

/-! ### Concrete objects for witnesses and counterexamples -/

/-- The spec's own example line (scenario 2 in section 8). -/
def lineDb : String := "\x7b\"level\":\"error\",\"msg\":\"db down\"\x7d"

/-- The record the example line deserializes to. -/
def recDb : PartialLog :=
  { level := some "error", severity := none, msg := some "db down", message := none }

/-- A concrete JSON parser recognising exactly the example line. -/
def demoJson : JsonParser := fun l => if l == lineDb then some recDb else none

/-- A structured line whose level is benign but whose text an
error-named rule matches. -/
def lineInfo : String := "\x7b\"level\":\"info\",\"msg\":\"error inside\"\x7d"

/-- The record `lineInfo` deserializes to: level "info", not severe. -/
def recInfo : PartialLog :=
  { level := some "info", severity := none, msg := some "error inside", message := none }

/-- A concrete JSON parser recognising exactly `lineInfo`. -/
def demoJson2 : JsonParser := fun l => if l == lineInfo then some recInfo else none

/-- A JSON parser on which every parse fails. -/
def jNone : JsonParser := fun _ => none

/-- A parser with an empty rule set. -/
def pEmpty : LogParser := { regex_set := [], rule_names := [] }

/-- A parser with one always-matching rule named "Error". -/
def pError : LogParser := { regex_set := [fun _ => true], rule_names := ["Error"] }

/-- A parser with one always-matching rule named "Info". -/
def pInfo : LogParser := { regex_set := [fun _ => true], rule_names := ["Info"] }

/-- A parser with two always-matching rules. -/
def pTwo : LogParser := { regex_set := [fun _ => true, fun _ => true], rule_names := ["A", "B"] }

/-- The initial state with no webhook configured. -/
def s0 : AppState := AppState.new none

/-- A concrete regex engine that rejects exactly the pattern "[". -/
def demoEngine : RegexEngine :=
  { compile := fun p => if p == "[" then none else some (fun _ => false) }

/-! ### Claim C1: structured error lines and the recorded alert message -/

/-- C1, counterexample: on the spec's own example line
(level "error", msg "db down") the recorded last-alert is
"JSON: db down", not "structured: db down" as the claim states —
`process_line` composes the message with the prefix "JSON: ". -/
theorem claim_C1_cex :
    (pEmpty.processLine demoJson lineDb 0 s0).1.last_error = some "JSON: db down"
      ∧ ¬ (pEmpty.processLine demoJson lineDb 0 s0).1.last_error
          = some "structured: db down" := by
  decide

/-- C1, amended: for every line whose leading non-whitespace content
starts with a left brace and that parses as a structured record whose
level (or, if absent, severity) field lower-cases to error, panic or
fatal, classification is an alert — `total_errors` increments — and the
recorded last-alert equals "JSON: " followed by the message field, else
the msg field, else the raw line, in that preference order. -/
theorem claim_C1 (p : LogParser) (J : JsonParser) (line : String) (now : Nat) (s : AppState)
    (json : PartialLog) (hb : strStartsWithBrace (strTrimLeft line) = true)
    (hp : J line = some json) (he : isErrorLevel json = true) :
    (p.processLine J line now s).1.total_errors = (s.total_errors + 1) % u64Size
      ∧ (p.processLine J line now s).1.last_error
          = some ("JSON: " ++ (firstSome json.message json.msg).getD line) := by
  rw [processLine_structured_alert p J line now s json hb hp he]
  simp

/-- C1, witness: the amended claim evaluated on the example line. -/
theorem claim_C1_wit :
    (pEmpty.processLine demoJson lineDb 0 s0).1.total_errors = (s0.total_errors + 1) % u64Size
      ∧ (pEmpty.processLine demoJson lineDb 0 s0).1.last_error
          = some ("JSON: " ++ (firstSome recDb.message recDb.msg).getD lineDb) :=
  claim_C1 pEmpty demoJson lineDb 0 s0 recDb (by decide) (by decide) (by decide)

/-! ### Claim C2: structured lines with benign level fall through -/

/-- C2, counterexample: `lineInfo` parses as a structured record with
level "info" (no severity indication), yet processing it against an
always-matching rule named "Error" increments `total_errors` and
overwrites `last_error` with the raw line: the pattern matcher IS
consulted for a structured line whose level is benign. -/
theorem claim_C2_cex :
    (pError.processLine demoJson2 lineInfo 0 s0).1.total_errors = 1
      ∧ ¬ (pError.processLine demoJson2 lineInfo 0 s0).1.total_errors = s0.total_errors
      ∧ (pError.processLine demoJson2 lineInfo 0 s0).1.last_error = some lineInfo := by
  decide

/-- C2, amended: for every line that parses as a structured record whose
level/severity does not indicate error, panic or fatal, the structured
branch records nothing, but the line falls through to the pattern
matcher: processing it is exactly the pattern step on the
line-incremented state, so it can still be an alert when an
error/panic-named rule matches it. -/
theorem claim_C2 (p : LogParser) (J : JsonParser) (line : String) (now : Nat) (s : AppState)
    (json : PartialLog) (hb : strStartsWithBrace (strTrimLeft line) = true)
    (hp : J line = some json) (he : isErrorLevel json = false) :
    p.processLine J line now s = p.patternStep line now s.increment_lines :=
  processLine_structured_benign p J line now s json hb hp he

/-- C2, witness: the amended claim evaluated on `lineInfo`. -/
theorem claim_C2_wit :
    pError.processLine demoJson2 lineInfo 0 s0
      = pError.patternStep lineInfo 0 s0.increment_lines :=
  claim_C2 pError demoJson2 lineInfo 0 s0 recInfo (by decide) (by decide) (by decide)

/-! ### Claim C3: the notification cooldown gate -/

/-- C3: `should_send_webhook` as a stateful function: when no
notification was ever sent it allows and records now; when the elapsed
time since last-sent exceeds the 10-second cooldown it allows and
updates last-sent to now; otherwise it refuses and leaves the gate state
unchanged.  Consequently the first alert-worthy event dispatches, one
within the window does not, and one after the window dispatches again. -/
theorem claim_C3 (last : Option Nat) (now : Nat) :
    (last = none → shouldSendWebhook last now = (true, some now))
      ∧ (∀ t, last = some t → now - t > cooldownNanos →
          shouldSendWebhook last now = (true, some now))
      ∧ (∀ t, last = some t → ¬ now - t > cooldownNanos →
          shouldSendWebhook last now = (false, last)) := by
  refine ⟨fun h => ?_, fun t ht hgt => ?_, fun t ht hle => ?_⟩
  · subst h; rfl
  · subst ht; simp [shouldSendWebhook, hgt]
  · subst ht; simp [shouldSendWebhook, hle]

/-- C3, witness: the gate evaluated at a fresh state, after eleven
seconds of silence, and after three seconds of silence. -/
theorem claim_C3_wit :
    shouldSendWebhook none 5 = (true, some 5)
      ∧ shouldSendWebhook (some 0) 11000000000 = (true, some 11000000000)
      ∧ shouldSendWebhook (some 0) 3000000000 = (false, some 0) :=
  ⟨(claim_C3 none 5).1 rfl,
   (claim_C3 (some 0) 11000000000).2.1 0 rfl (by norm_num [cooldownNanos]),
   (claim_C3 (some 0) 3000000000).2.2 0 rfl (by norm_num [cooldownNanos])⟩

/-! ### Claim C4: first-declared-rule-wins matching -/

/-- C4: the compiled matcher reports `some i` exactly when rule `i`
matches the line and no rule with a lower declared index does
(first-declared-rule-wins), and reports `none` exactly when no rule
matches the line. -/
theorem claim_C4 (p : LogParser) (line : String) :
    (∀ i, p.firstMatch line = some i ↔
        (i < p.regex_set.length ∧ patAt p.regex_set i line = true
          ∧ ∀ j, j < i → patAt p.regex_set j line = false))
      ∧ (p.firstMatch line = none ↔ ∀ i, patAt p.regex_set i line = false) := by
  constructor
  · intro i
    constructor
    · exact fun h => head_matchIndices_some p.regex_set line i h
    · rintro ⟨hlen, hpi, hbelow⟩
      exact head_matchIndices_least p.regex_set line i hlen hpi hbelow
  · exact head_matchIndices_none p.regex_set line

/-- C4, witness: with two always-matching rules the matcher reports
index 0; with no rules it reports none. -/
theorem claim_C4_wit :
    pTwo.firstMatch "x" = some 0 ∧ pEmpty.firstMatch "x" = none :=
  ⟨((claim_C4 pTwo "x").1 0).mpr
      ⟨by decide, by decide, fun j hj => absurd hj (Nat.not_lt_zero j)⟩,
   (claim_C4 pEmpty "x").2.mpr (fun i => rfl)⟩

/-! ### Claim C5: total_lines increments unconditionally -/

/-- C5: processing any line increments `total_lines` by exactly one
(modulo the `u64` wrap of `fetch_add`), regardless of whether the line
is structured, matches a pattern, is alert-worthy, or fails to parse;
below the wrap bound this is exactly plus one. -/
theorem claim_C5 (p : LogParser) (J : JsonParser) (line : String) (now : Nat) (s : AppState) :
    (p.processLine J line now s).1.total_lines = (s.total_lines + 1) % u64Size
      ∧ (s.total_lines + 1 < u64Size →
          (p.processLine J line now s).1.total_lines = s.total_lines + 1) := by
  have hmain : (p.processLine J line now s).1.total_lines = (s.total_lines + 1) % u64Size := by
    unfold LogParser.processLine
    split
    · split
      · split
        · simp
        · rw [patternStep_total_lines]; simp
      · rw [patternStep_total_lines]; simp
    · rw [patternStep_total_lines]; simp
  exact ⟨hmain, fun hlt => by rw [hmain]; exact Nat.mod_eq_of_lt hlt⟩

/-- C5, witness: processing an arbitrary line from the initial state
yields `total_lines = 1`. -/
theorem claim_C5_wit :
    (pEmpty.processLine jNone "system healthy" 0 s0).1.total_lines = s0.total_lines + 1 :=
  (claim_C5 pEmpty jNone "system healthy" 0 s0).2 (by decide)

/-! ### Claim C6: pattern alerts gated by the rule name -/

/-- C6: for every non-structured line — one whose leading
non-whitespace does not start with a left brace, or whose JSON parse
fails (a malformed structured line is treated as not structured) — on
which the matcher reports a rule, classification is an alert iff that
rule's lower-cased name contains "error" or "panic"; when it is an
alert, `total_errors` increments and `last_error` is set to the raw
line unmodified, and when it is not, both are unchanged. -/
theorem claim_C6 (p : LogParser) (J : JsonParser) (line : String) (now : Nat) (s : AppState)
    (idx : Nat)
    (hns : strStartsWithBrace (strTrimLeft line) = false ∨ J line = none)
    (hm : p.firstMatch line = some idx) :
    ((strContains (strLower (p.rule_names.getD idx "")) "error"
        || strContains (strLower (p.rule_names.getD idx "")) "panic") = true →
      (p.processLine J line now s).1.total_errors = (s.total_errors + 1) % u64Size
        ∧ (p.processLine J line now s).1.last_error = some line)
      ∧ ((strContains (strLower (p.rule_names.getD idx "")) "error"
        || strContains (strLower (p.rule_names.getD idx "")) "panic") = false →
      (p.processLine J line now s).1.total_errors = s.total_errors
        ∧ (p.processLine J line now s).1.last_error = s.last_error) := by
  have hstep : p.processLine J line now s = p.patternStep line now s.increment_lines := by
    rcases hns with hb | hj
    · exact processLine_not_structured p J line now s hb
    · by_cases hb : strStartsWithBrace (strTrimLeft line) = true
      · exact processLine_parse_failed p J line now s hb hj
      · exact processLine_not_structured p J line now s (by simpa using hb)
  rw [hstep]
  unfold LogParser.patternStep
  split
  · rename_i idx' heq'
    rw [hm] at heq'
    obtain rfl := Option.some.inj heq'
    constructor <;> intro hname <;> rw [hname] <;> simp
  · rename_i heq'
    rw [hm] at heq'
    simp at heq'

/-- C6, witness: the rule named "Error" matching the plain line "boom"
records an alert with the raw line, and so does the brace-starting line
"\x7boops ERROR" whose JSON parse fails. -/
theorem claim_C6_wit :
    ((pError.processLine jNone "boom" 0 s0).1.total_errors = (s0.total_errors + 1) % u64Size
      ∧ (pError.processLine jNone "boom" 0 s0).1.last_error = some "boom")
      ∧ ((pError.processLine jNone "\x7boops ERROR" 0 s0).1.total_errors
            = (s0.total_errors + 1) % u64Size
        ∧ (pError.processLine jNone "\x7boops ERROR" 0 s0).1.last_error
            = some "\x7boops ERROR") :=
  ⟨(claim_C6 pError jNone "boom" 0 s0 0 (Or.inl (by decide)) (by decide)).1 (by decide),
   (claim_C6 pError jNone "\x7boops ERROR" 0 s0 0 (Or.inr rfl) (by decide)).1 (by decide)⟩

/-! ### Claim C7: the frame of benign lines -/

/-- C7: for every line that is neither a recognized-severity structured
line nor matched by a rule whose lower-cased name contains "error" or
"panic", processing only increments `total_lines`: the rest of the
state — `total_errors`, `last_error`, `last_webhook_sent` — is unchanged
and no dispatch is spawned. -/
theorem claim_C7 (p : LogParser) (J : JsonParser) (line : String) (now : Nat) (s : AppState)
    (hjs : strStartsWithBrace (strTrimLeft line) = true →
      ∀ json, J line = some json → isErrorLevel json = false)
    (hrm : ∀ i, i < p.regex_set.length → patAt p.regex_set i line = true →
      (strContains (strLower (p.rule_names.getD i "")) "error"
        || strContains (strLower (p.rule_names.getD i "")) "panic") = false) :
    p.processLine J line now s = (s.increment_lines, none) := by
  have hno : ∀ idx, p.firstMatch line = some idx →
      (strContains (strLower (p.rule_names.getD idx "")) "error"
        || strContains (strLower (p.rule_names.getD idx "")) "panic") = false := by
    intro idx heq
    obtain ⟨hlen, hpi, -⟩ := head_matchIndices_some p.regex_set line idx heq
    exact hrm idx hlen hpi
  by_cases hb : strStartsWithBrace (strTrimLeft line) = true
  · cases hJ : J line with
    | some json =>
      rw [processLine_structured_benign p J line now s json hb hJ (hjs hb json hJ)]
      exact patternStep_no_alert p line now s.increment_lines hno
    | none =>
      rw [processLine_parse_failed p J line now s hb hJ]
      exact patternStep_no_alert p line now s.increment_lines hno
  · rw [processLine_not_structured p J line now s (Bool.not_eq_true _ ▸ eq_false_of_ne_true hb)]
    exact patternStep_no_alert p line now s.increment_lines hno

/-- C7, witness: the line "hello", matched only by a rule named "Info",
leaves everything but `total_lines` unchanged. -/
theorem claim_C7_wit :
    pInfo.processLine jNone "hello" 0 s0 = (s0.increment_lines, none) :=
  claim_C7 pInfo jNone "hello" 0 s0
    (fun hb => absurd hb (by decide))
    (fun i hi _ => by
      have hi1 : i < 1 := by simpa [pInfo] using hi
      have h0 : i = 0 := by omega
      subst h0
      decide)

/-! ### Claim C8: invalid patterns at startup -/

/-- C8, counterexample: with a rule whose pattern "[" the engine rejects,
`LogParser::new` fails by panicking ("Invalid RegexSet in config" via
`expect`), not by returning a `ConfigError` value: the source has no
`ConfigError` type and the constructor aborts instead of erroring. -/
theorem claim_C8_cex :
    LogParser.new demoEngine [{ name := "Bad", pattern := "[", threshold := 1 }]
        = StartupResult.panicked "Invalid RegexSet in config"
      ∧ (LogParser.new demoEngine
          [{ name := "Bad", pattern := "[", threshold := 1 }]).isConfigError = false :=
  ⟨rfl, rfl⟩

/-- C8, amended: if any rule's pattern is not a valid regular expression,
matcher construction panics with "Invalid RegexSet in config" before any
line is processed, so the pipeline is never started with that rule set
(the startup outcome carries no parser). -/
theorem claim_C8 (E : RegexEngine) (rules : List LogRule)
    (h : ∃ r, r ∈ rules ∧ E.compile r.pattern = none) :
    LogParser.new E rules = StartupResult.panicked "Invalid RegexSet in config" := by
  obtain ⟨r, hr, hc⟩ := h
  unfold LogParser.new
  rw [compileAll_eq_none E (rules.map (fun r => r.pattern)) r.pattern
    (List.mem_map_of_mem (fun r => r.pattern) hr) hc]

/-- C8, witness: the amended claim evaluated on the invalid pattern. -/
theorem claim_C8_wit :
    LogParser.new demoEngine [{ name := "Bad", pattern := "[", threshold := 1 }]
      = StartupResult.panicked "Invalid RegexSet in config" :=
  claim_C8 demoEngine [{ name := "Bad", pattern := "[", threshold := 1 }]
    ⟨{ name := "Bad", pattern := "[", threshold := 1 }, List.mem_singleton.mpr rfl, rfl⟩

/-! ### Claim C9: the threshold field gates nothing -/

/-- C9: two rule lists with the same names and the same patterns — in
particular, two lists differing only in their threshold values — compile
to identical startup outcomes, hence identical parsers: every subsequent
`process_line` behaviour (classification, counters, last alert,
notification decision) coincides.  The threshold field is never read. -/
theorem claim_C9 (E : RegexEngine) (rules1 rules2 : List LogRule)
    (hn : rules1.map (fun r => r.name) = rules2.map (fun r => r.name))
    (hp : rules1.map (fun r => r.pattern) = rules2.map (fun r => r.pattern)) :
    LogParser.new E rules1 = LogParser.new E rules2 := by
  unfold LogParser.new
  rw [hn, hp]

/-- C9, witness: the same rule with thresholds 1 and 99 yields the same
compiled parser. -/
theorem claim_C9_wit :
    LogParser.new demoEngine [{ name := "Error", pattern := "err", threshold := 1 }]
      = LogParser.new demoEngine [{ name := "Error", pattern := "err", threshold := 99 }] :=
  claim_C9 demoEngine _ _ rfl rfl

/-! ### Claim C10: no double-counted alert per line -/

/-- C10: processing one line increments `total_errors` at most once: the
structured branch returns early, so even a line that would qualify on
both paths is counted once; the counter is either unchanged or bumped by
exactly one `fetch_add`. -/
theorem claim_C10 (p : LogParser) (J : JsonParser) (line : String) (now : Nat) (s : AppState) :
    (p.processLine J line now s).1.total_errors = s.total_errors
      ∨ (p.processLine J line now s).1.total_errors = (s.total_errors + 1) % u64Size := by
  unfold LogParser.processLine
  split
  · split
    · split
      · right; simp
      · simpa using patternStep_errors_cases p line now s.increment_lines
    · simpa using patternStep_errors_cases p line now s.increment_lines
  · simpa using patternStep_errors_cases p line now s.increment_lines

end Sentinel
